import Mathlib

/-!
Verification of the nonlinear-solver module (`nonlinear_solvers/solvers.py`).

The module provides three operations over scalar functions:
`newton_raphson`, `bisection`, and the composite `solve`.  We embed the
Python code shallowly: real numbers become exact rationals (`ℚ`), the two
Python exception kinds (`ConvergenceError` and `ValueError` with a message)
become a `SolverError` sum, and each `while` loop becomes a structurally
recursive function on the number of iterations still allowed before the
iteration cap is exceeded (`remaining = max_its - iteration`; the Python
code raises as soon as its counter passes `max_its`, which is exactly when
`remaining` would drop below zero).
-/

/-- Errors a solver can signal.  `convergenceError` models the Python
`ConvergenceError` exception; `valueError msg` models `ValueError(msg)`
raised by the bisection bracket-validity check. -/
inductive SolverError where
  | convergenceError : SolverError
  | valueError : String → SolverError
deriving DecidableEq, Repr

deriving instance DecidableEq for Except

/-- One pass of the Newton-Raphson `while` loop, from
`newton_raphson` in `solvers.py`:

    while np.abs(f(x_0)) > eps:
        x_0 = x_0 - (f(x_0) / df(x_0))
        iteration += 1
        if iteration > max_its:
            raise ConvergenceError

`remaining` counts how many further updates may complete before the
counter exceeds `max_its`. -/
def newtonGo (f df : ℚ → ℚ) (eps : ℚ) : ℕ → ℚ → Except SolverError ℚ
  | remaining, x_0 =>
    if |f x_0| > eps then
      match remaining with
      | 0 => Except.error SolverError.convergenceError
      | r + 1 => newtonGo f df eps r (x_0 - f x_0 / df x_0)
    else Except.ok x_0

/-- `newton_raphson(f, df, x_0, eps, max_its)` from `solvers.py`. -/
def newton_raphson (f df : ℚ → ℚ) (x_0 : ℚ) (eps : ℚ) (max_its : ℕ) :
    Except SolverError ℚ :=
  newtonGo f df eps max_its x_0

/-- The sequence of Newton iterates from a starting point: `newtonIter f df x k`
is the value of the loop variable after `k` updates `x ← x - f x / df x`. -/
def newtonIter (f df : ℚ → ℚ) (x_0 : ℚ) : ℕ → ℚ
  | 0 => x_0
  | k + 1 =>
    let x := newtonIter f df x_0 k
    x - f x / df x

/-- The bracket-narrowing step of `bisection` in `solvers.py`, acting on the
three cached evaluations and the current bracket:

    if f_xmid < 0 and f_x0 < 0:
        x_0 = x_mid
    elif f_xmid > 0 and f_x0 > 0:
        x_0 = x_mid
    elif f_xmid > 0 and f_x1 > 0:
        x_1 = x_mid
    elif f_xmid < 0 and f_x1 < 0:
        x_1 = x_mid

Returns the updated pair `(x_0, x_1)`; when no branch matches the bracket is
returned unchanged. -/
def narrow (f_xmid f_x0 f_x1 x_0 x_1 x_mid : ℚ) : ℚ × ℚ :=
  if f_xmid < 0 ∧ f_x0 < 0 then (x_mid, x_1)
  else if f_xmid > 0 ∧ f_x0 > 0 then (x_mid, x_1)
  else if f_xmid > 0 ∧ f_x1 > 0 then (x_0, x_mid)
  else if f_xmid < 0 ∧ f_x1 < 0 then (x_0, x_mid)
  else (x_0, x_1)

/-- The bracket-narrowing rule exactly as the specification words it
(section 4.2 step 3): an ordered set of four cases, first true case wins
(`if f(mid) < 0 and f(x0) < 0` set `x0 ← mid`; else `if f(mid) > 0 and
f(x0) > 0` set `x0 ← mid`; else `if f(mid) > 0 and f(x1) > 0` set
`x1 ← mid`; else `if f(mid) < 0 and f(x1) < 0` set `x1 ← mid`), and when
none match neither endpoint is updated.  Kept separate from `narrow`, which
is translated from the code, so the two can be compared. -/
def specNarrow (f_mid f_a f_b a b mid : ℚ) : ℚ × ℚ :=
  if f_mid < 0 ∧ f_a < 0 then (mid, b)
  else if f_mid > 0 ∧ f_a > 0 then (mid, b)
  else if f_mid > 0 ∧ f_b > 0 then (a, mid)
  else if f_mid < 0 ∧ f_b < 0 then (a, mid)
  else (a, b)

/-- One pass of the bisection `while` loop, from `bisection` in `solvers.py`:

    while np.abs(f(x_mid)) > eps:
        x_mid = (x_0 + x_1)/2
        f_xmid = f(x_mid)
        f_x0 = f(x_0)
        f_x1 = f(x_1)
        if (f_x0 > 0) and (f_x1 > 0):
            raise ValueError("f(x) positive for both endpoints.")
        elif (f_x0 < 0) and (f_x1 < 0):
            raise ValueError("f(x) negative for both endpoints.")
        <narrowing step>
        iteration += 1
        if iteration > max_its:
            raise ConvergenceError

As in `newtonGo`, `remaining = max_its - iteration` counts the passes that
may still complete before the counter exceeds the cap; the loop guard tests
the `x_mid` left over from the previous pass before it is recomputed.  The
Python locals `x_mid = (x_0 + x_1)/2`, `f_xmid`, `f_x0` and `f_x1` are
inlined here: `f` is a pure function (the specification assumes the solver
may call it repeatedly with no side effects), so caching its value in a
local and re-evaluating it are indistinguishable. -/
def bisectGo (f : ℚ → ℚ) (eps : ℚ) : ℕ → ℚ → ℚ → ℚ → Except SolverError ℚ
  | remaining, x_0, x_1, x_mid =>
    if |f x_mid| > eps then
      if f x_0 > 0 ∧ f x_1 > 0 then
        Except.error (SolverError.valueError "f(x) positive for both endpoints.")
      else if f x_0 < 0 ∧ f x_1 < 0 then
        Except.error (SolverError.valueError "f(x) negative for both endpoints.")
      else
        match remaining with
        | 0 => Except.error SolverError.convergenceError
        | r + 1 =>
          bisectGo f eps r
            (narrow (f ((x_0 + x_1) / 2)) (f x_0) (f x_1) x_0 x_1 ((x_0 + x_1) / 2)).1
            (narrow (f ((x_0 + x_1) / 2)) (f x_0) (f x_1) x_0 x_1 ((x_0 + x_1) / 2)).2
            ((x_0 + x_1) / 2)
    else Except.ok x_mid

/-- `bisection(f, x_0, x_1, eps, max_its)` from `solvers.py`: the initial
midpoint is computed before the loop, then `bisectGo` runs the loop. -/
def bisection (f : ℚ → ℚ) (x_0 x_1 : ℚ) (eps : ℚ) (max_its : ℕ) :
    Except SolverError ℚ :=
  bisectGo f eps max_its x_0 x_1 ((x_0 + x_1) / 2)

/-- `solve(f, df, x_0, x_1, eps, max_its_n, max_its_b)` from `solvers.py`:

    try:
        x = newton_raphson(f, df, x_0, eps, max_its_n)
    except ConvergenceError:
        x = bisection(f, x_0, x_1, eps, max_its_b)
    return x

The `except` clause catches only `ConvergenceError`; any other error would
propagate. -/
def solve (f df : ℚ → ℚ) (x_0 x_1 : ℚ) (eps : ℚ) (max_its_n max_its_b : ℕ) :
    Except SolverError ℚ :=
  match newton_raphson f df x_0 eps max_its_n with
  | Except.ok x => Except.ok x
  | Except.error SolverError.convergenceError => bisection f x_0 x_1 eps max_its_b
  | Except.error e => Except.error e

/-- Shifting the starting point by one Newton update shifts the iterate index. -/
lemma newtonIter_shift (f df : ℚ → ℚ) (x : ℚ) :
    ∀ k, newtonIter f df (x - f x / df x) k = newtonIter f df x (k + 1) := by
  intro k
  induction k with
  | zero => rfl
  | succ k ih => simp only [newtonIter, ih]

/-- The Newton loop can only fail with `convergenceError`: no other error kind
is ever produced by `newton_raphson`. -/
lemma newtonGo_error_elim (f df : ℚ → ℚ) (eps : ℚ) :
    ∀ (r : ℕ) (x : ℚ) (e : SolverError),
      newtonGo f df eps r x = Except.error e → e = SolverError.convergenceError := by
  intro r
  induction r with
  | zero =>
    intro x e h
    rw [newtonGo] at h
    split_ifs at h with hg
    simp only [Except.error.injEq] at h
    exact h.symm
  | succ r ih =>
    intro x e h
    rw [newtonGo] at h
    split_ifs at h with hg
    exact ih _ _ h

/-- The Newton loop fails with `convergenceError` exactly when every iterate
reachable within the remaining update budget stays outside tolerance. -/
lemma newtonGo_error_iff (f df : ℚ → ℚ) (eps : ℚ) :
    ∀ (r : ℕ) (x : ℚ),
      newtonGo f df eps r x = Except.error SolverError.convergenceError ↔
        ∀ k ≤ r, eps < |f (newtonIter f df x k)| := by
  intro r
  induction r with
  | zero =>
    intro x
    rw [newtonGo]
    constructor
    · intro h k hk
      interval_cases k
      split_ifs at h with hg
      exact hg
    · intro h
      have h0 : |f x| > eps := h 0 le_rfl
      rw [if_pos h0]
  | succ r ih =>
    intro x
    rw [newtonGo]
    constructor
    · intro h k hk
      split_ifs at h with hg
      · rcases Nat.eq_zero_or_eq_succ_pred k with hk0 | hk1
        · rwa [hk0]
        · rw [hk1]
          rw [← newtonIter_shift]
          exact (ih _).mp h (k - 1) (by omega)
    · intro h
      have h0 : |f x| > eps := h 0 (Nat.zero_le _)
      rw [if_pos h0]
      exact (ih _).mpr fun k hk => (newtonIter_shift f df x k) ▸ h (k + 1) (by omega)

/-- Whenever the Newton loop returns a value, that value is within tolerance
and is one of the Newton iterates of the starting point, reached within the
remaining update budget. -/
lemma newtonGo_ok_elim (f df : ℚ → ℚ) (eps : ℚ) :
    ∀ (r : ℕ) (x y : ℚ), newtonGo f df eps r x = Except.ok y →
      |f y| ≤ eps ∧ ∃ k, k ≤ r ∧ y = newtonIter f df x k := by
  intro r
  induction r with
  | zero =>
    intro x y h
    rw [newtonGo] at h
    split_ifs at h with hg
    simp only [Except.ok.injEq] at h
    exact ⟨h ▸ not_lt.mp hg, 0, le_rfl, h.symm⟩
  | succ r ih =>
    intro x y h
    rw [newtonGo] at h
    split_ifs at h with hg
    · obtain ⟨hy, k, hk, hiter⟩ := ih _ _ h
      exact ⟨hy, k + 1, by omega, by rw [hiter, newtonIter_shift]⟩
    · simp only [Except.ok.injEq] at h
      exact ⟨h ▸ not_lt.mp hg, 0, Nat.zero_le _, h.symm⟩

/-- If the starting point is already within tolerance, the Newton loop
returns it unchanged, whatever the iteration budget is. -/
lemma newtonGo_ok_of_converged (f df : ℚ → ℚ) (eps : ℚ) (r : ℕ) (x : ℚ)
    (h : |f x| ≤ eps) : newtonGo f df eps r x = Except.ok x := by
  cases r with
  | zero => rw [newtonGo, if_neg (not_lt.mpr h)]
  | succ r => rw [newtonGo, if_neg (not_lt.mpr h)]

/-- Whenever the bisection loop returns a value, that value is within
tolerance: the only `ok` exit is the loop guard failing on the returned
midpoint. -/
lemma bisectGo_ok_elim (f : ℚ → ℚ) (eps : ℚ) :
    ∀ (r : ℕ) (x_0 x_1 xm y : ℚ),
      bisectGo f eps r x_0 x_1 xm = Except.ok y → |f y| ≤ eps := by
  intro r
  induction r with
  | zero =>
    intro x_0 x_1 xm y h
    rw [bisectGo] at h
    split_ifs at h with hg
    simp only [Except.ok.injEq] at h
    exact h ▸ not_lt.mp hg
  | succ r ih =>
    intro x_0 x_1 xm y h
    rw [bisectGo] at h
    split_ifs at h with hg h1 h2
    · exact ih _ _ _ _ h
    · simp only [Except.ok.injEq] at h
      exact h ▸ not_lt.mp hg

/-- When the loop guard holds and both endpoints evaluate strictly positive,
the bisection loop raises the positive-endpoints `ValueError` at once. -/
lemma bisectGo_posPos (f : ℚ → ℚ) (eps : ℚ) (r : ℕ) (x_0 x_1 xm : ℚ)
    (hg : |f xm| > eps) (h0 : f x_0 > 0) (h1 : f x_1 > 0) :
    bisectGo f eps r x_0 x_1 xm =
      Except.error (SolverError.valueError "f(x) positive for both endpoints.") := by
  cases r with
  | zero => simp [bisectGo, hg, h0, h1]
  | succ r => simp [bisectGo, hg, h0, h1]

/-- When the loop guard holds and both endpoints evaluate strictly negative,
the bisection loop raises the negative-endpoints `ValueError` at once. -/
lemma bisectGo_negNeg (f : ℚ → ℚ) (eps : ℚ) (r : ℕ) (x_0 x_1 xm : ℚ)
    (hg : |f xm| > eps) (h0 : f x_0 < 0) (h1 : f x_1 < 0) :
    bisectGo f eps r x_0 x_1 xm =
      Except.error (SolverError.valueError "f(x) negative for both endpoints.") := by
  cases r with
  | zero => simp [bisectGo, hg, h0, h1, lt_asymm h0]
  | succ r => simp [bisectGo, hg, h0, h1, lt_asymm h0]

/-- If either endpoint evaluates to exactly zero, neither branch of the
bracket-validity check fires: a pass of the loop proceeds to the narrowing
step and the iteration-cap logic (recursing when budget remains, raising
`convergenceError` when the counter would exceed the cap). -/
lemma bisectGo_zero_endpoint_passes (f : ℚ → ℚ) (eps : ℚ) (x_0 x_1 xm : ℚ)
    (hz : f x_0 = 0 ∨ f x_1 = 0) (hg : |f xm| > eps) :
    bisectGo f eps 0 x_0 x_1 xm = Except.error SolverError.convergenceError ∧
    ∀ r : ℕ, bisectGo f eps (r + 1) x_0 x_1 xm =
      bisectGo f eps r
        (narrow (f ((x_0 + x_1) / 2)) (f x_0) (f x_1) x_0 x_1 ((x_0 + x_1) / 2)).1
        (narrow (f ((x_0 + x_1) / 2)) (f x_0) (f x_1) x_0 x_1 ((x_0 + x_1) / 2)).2
        ((x_0 + x_1) / 2) := by
  have hnp : ¬(f x_0 > 0 ∧ f x_1 > 0) := by rcases hz with h | h <;> simp [h]
  have hnn : ¬(f x_0 < 0 ∧ f x_1 < 0) := by rcases hz with h | h <;> simp [h]
  constructor
  · rw [bisectGo, if_pos hg, if_neg hnp, if_neg hnn]
  · intro r
    rw [bisectGo, if_pos hg, if_neg hnp, if_neg hnn]

/-- The narrowing step preserves a strictly-opposite-sign bracket: starting
from endpoints whose images straddle zero, the updated pair still straddles
zero (when the midpoint value is exactly zero the bracket is unchanged). -/
lemma narrow_preserves_sign (f : ℚ → ℚ) (x_0 x_1 m : ℚ)
    (h : (f x_0 < 0 ∧ f x_1 > 0) ∨ (f x_0 > 0 ∧ f x_1 < 0)) :
    (f (narrow (f m) (f x_0) (f x_1) x_0 x_1 m).1 < 0 ∧
        f (narrow (f m) (f x_0) (f x_1) x_0 x_1 m).2 > 0) ∨
      (f (narrow (f m) (f x_0) (f x_1) x_0 x_1 m).1 > 0 ∧
        f (narrow (f m) (f x_0) (f x_1) x_0 x_1 m).2 < 0) := by
  unfold narrow
  rcases h with ⟨h0, h1⟩ | ⟨h0, h1⟩ <;>
    split_ifs with c1 c2 c3 c4 <;> simp_all <;> first | tauto | linarith

/-- C1: in every bisection iteration, the bracket-narrowing step (`narrow`,
the step invoked by `bisectGo`) follows exactly the ordered four-case rule
stated by the specification, first true case wins, and when no case matches
neither endpoint is updated.  `specNarrow` transcribes that rule from the
specification text; the narrowing step of the code coincides with it. -/
theorem bisection_narrowing_matches_spec_rule :
    ∀ f_xmid f_x0 f_x1 x_0 x_1 x_mid : ℚ,
      narrow f_xmid f_x0 f_x1 x_0 x_1 x_mid =
        specNarrow f_xmid f_x0 f_x1 x_0 x_1 x_mid := by
  intro _ _ _ _ _ _
  rfl

/-- C2: `newton_raphson` fails with the convergence-failure signal exactly
when every Newton iterate reachable before the counter exceeds `max_its`
(the starting point and the first `max_its` updates) is still outside
tolerance; otherwise it returns a converged value. -/
theorem newton_raphson_failure_iff_no_iterate_converges :
    ∀ (f df : ℚ → ℚ) (x_0 eps : ℚ) (max_its : ℕ),
      (newton_raphson f df x_0 eps max_its = Except.error SolverError.convergenceError ↔
        ∀ k ≤ max_its, eps < |f (newtonIter f df x_0 k)|) ∧
      (¬(∀ k ≤ max_its, eps < |f (newtonIter f df x_0 k)|) →
        ∃ x, newton_raphson f df x_0 eps max_its = Except.ok x ∧ |f x| ≤ eps) := by
  intro f df x_0 eps max_its
  refine ⟨newtonGo_error_iff f df eps max_its x_0, ?_⟩
  intro hnot
  cases hres : newton_raphson f df x_0 eps max_its with
  | ok x => exact ⟨x, rfl, (newtonGo_ok_elim f df eps max_its x_0 x hres).1⟩
  | error e =>
    have he := newtonGo_error_elim f df eps max_its x_0 e hres
    subst he
    exact absurd ((newtonGo_error_iff f df eps max_its x_0).mp hres) hnot

/-- Witness for C2: with `f(x) = x`, start `2` and `max_its = 0`, no iterate
within the budget is inside the tolerance `1/2`, so the solver fails. -/
theorem newton_raphson_failure_iff_no_iterate_converges_witness :
    newton_raphson (fun x => x) (fun _ => 1) 2 (1/2) 0 =
      Except.error SolverError.convergenceError :=
  (newton_raphson_failure_iff_no_iterate_converges (fun x => x) (fun _ => 1) 2 (1/2) 0).1.mpr
    (by
      intro k hk
      interval_cases k
      norm_num [newtonIter])

/-- Counterexample to C3 as stated: the message carried by the error has a
trailing period in the code (`"f(x) positive for both endpoints."`), so the
claim's message `"f(x) positive for both endpoints"` is not the one raised. -/
theorem bisection_bracket_message_counterexample :
    bisection (fun x => x) 1 2 (1/2) 20 =
        Except.error (SolverError.valueError "f(x) positive for both endpoints.") ∧
      bisection (fun x => x) 1 2 (1/2) 20 ≠
        Except.error (SolverError.valueError "f(x) positive for both endpoints") := by
  have h : bisection (fun x => x) 1 2 (1/2) 20 =
      Except.error (SolverError.valueError "f(x) positive for both endpoints.") := by
    rw [bisection, bisectGo]
    norm_num [abs_of_pos]
  refine ⟨h, ?_⟩
  rw [h]
  simp

/-- C3 (amended: the two messages end with a trailing period, exactly as in
the source).  On every bisection iteration whose guard holds: if both
endpoints evaluate strictly positive the loop fails at once with the
positive-endpoints message; if both evaluate strictly negative it fails at
once with the negative-endpoints message; and if either endpoint evaluates
to exactly zero neither branch triggers — the pass goes on to the narrowing
step and the iteration-cap logic. -/
theorem bisection_bracket_check_cases :
    ∀ (f : ℚ → ℚ) (x_0 x_1 xm eps : ℚ) (r : ℕ),
      |f xm| > eps →
      ((f x_0 > 0 ∧ f x_1 > 0) →
        bisectGo f eps r x_0 x_1 xm =
          Except.error (SolverError.valueError "f(x) positive for both endpoints.")) ∧
      ((f x_0 < 0 ∧ f x_1 < 0) →
        bisectGo f eps r x_0 x_1 xm =
          Except.error (SolverError.valueError "f(x) negative for both endpoints.")) ∧
      ((f x_0 = 0 ∨ f x_1 = 0) →
        bisectGo f eps 0 x_0 x_1 xm = Except.error SolverError.convergenceError ∧
        ∀ s : ℕ, bisectGo f eps (s + 1) x_0 x_1 xm =
          bisectGo f eps s
            (narrow (f ((x_0 + x_1) / 2)) (f x_0) (f x_1) x_0 x_1 ((x_0 + x_1) / 2)).1
            (narrow (f ((x_0 + x_1) / 2)) (f x_0) (f x_1) x_0 x_1 ((x_0 + x_1) / 2)).2
            ((x_0 + x_1) / 2)) := by
  intro f x_0 x_1 xm eps r hg
  exact ⟨fun h => bisectGo_posPos f eps r x_0 x_1 xm hg h.1 h.2,
    fun h => bisectGo_negNeg f eps r x_0 x_1 xm hg h.1 h.2,
    fun hz => bisectGo_zero_endpoint_passes f eps x_0 x_1 xm hz hg⟩

/-- Witness for C3: with `f(x) = x` on the bracket `[1, 2]`, both endpoints
are strictly positive and the loop guard holds at the midpoint, so the
positive-endpoints error is raised. -/
theorem bisection_bracket_check_cases_witness :
    bisectGo (fun x => x) (1/2) 20 1 2 (3/2) =
      Except.error (SolverError.valueError "f(x) positive for both endpoints.") :=
  (bisection_bracket_check_cases (fun x => x) 1 2 (3/2) (1/2) 20
    (by norm_num [abs_of_pos])).1 (by norm_num)

/-- Counterexample to C5 as stated: with the constant function `f(x) = 1` and
tolerance `eps = 1`, `newton_raphson` returns its starting point `0`, yet the
returned `x` satisfies only `|f(x)| ≤ eps`, not the claimed strict
`|f(x)| < eps` (the loop guard is `|f(x)| > eps`). -/
theorem newton_raphson_tolerance_boundary_counterexample :
    newton_raphson (fun _ => (1 : ℚ)) (fun _ => 1) 0 1 20 = Except.ok 0 ∧
      ¬(|(fun _ => (1 : ℚ)) 0| < 1) := by
  constructor
  · rw [newton_raphson, newtonGo]
    norm_num
  · norm_num

/-- C5 (amended: the returned value satisfies `|f(x)| ≤ eps`, the negation of
the loop guard `|f(x)| > eps`, rather than the strict `|f(x)| < eps`):
whenever `newton_raphson` returns a value, it is within tolerance in this
non-strict sense, it is one of the Newton iterates of the starting point
obtained by repeatedly applying `x ← x − f(x)/df(x)`, and the very first
convergence test is applied to the unmodified starting point. -/
theorem newton_raphson_ok_within_tolerance :
    ∀ (f df : ℚ → ℚ) (x_0 eps : ℚ) (max_its : ℕ) (x : ℚ),
      newton_raphson f df x_0 eps max_its = Except.ok x →
        |f x| ≤ eps ∧ (∃ k, k ≤ max_its ∧ x = newtonIter f df x_0 k) ∧
          (|f x_0| ≤ eps → x = x_0) := by
  intro f df x_0 eps max_its x h
  obtain ⟨h1, k, hk, hx⟩ := newtonGo_ok_elim f df eps max_its x_0 x h
  refine ⟨h1, ⟨k, hk, hx⟩, ?_⟩
  intro h0
  have h2 : Except.ok (ε := SolverError) x_0 = Except.ok x :=
    (newtonGo_ok_of_converged f df eps max_its x_0 h0).symm.trans h
  injection h2 with h3
  exact h3.symm

/-- Witness for C5 (amended): with `f(x) = x` and starting point `0`, the
solver returns `0`, which is within tolerance and is the 0th iterate. -/
theorem newton_raphson_ok_within_tolerance_witness :
    |(fun x => x) (0 : ℚ)| ≤ 1 ∧
      (∃ k, k ≤ 20 ∧ (0 : ℚ) = newtonIter (fun x => x) (fun _ => 1) 0 k) ∧
      (|(fun x => x) (0 : ℚ)| ≤ 1 → (0 : ℚ) = 0) :=
  newton_raphson_ok_within_tolerance (fun x => x) (fun _ => 1) 0 1 20 0
    (by rw [newton_raphson, newtonGo]; norm_num)

/-- Counterexample to C6 as stated: with the constant function `f(x) = 1` and
tolerance `eps = 1`, `bisection` returns the initial midpoint `1`, yet the
returned `mid` satisfies only `|f(mid)| ≤ eps`, not the claimed strict
`|f(mid)| < eps` (the loop guard is `|f(mid)| > eps`). -/
theorem bisection_tolerance_boundary_counterexample :
    bisection (fun _ => (1 : ℚ)) 0 2 1 20 = Except.ok 1 ∧
      ¬(|(fun _ => (1 : ℚ)) 1| < 1) := by
  constructor
  · rw [bisection, bisectGo]
    norm_num
  · norm_num

/-- C6 (amended: the returned `mid` satisfies `|f(mid)| ≤ eps`, the negation
of the loop guard `|f(mid)| > eps`, rather than the strict `|f(mid)| < eps`):
whenever `bisection` returns a value, that value is within tolerance in this
non-strict sense. -/
theorem bisection_ok_within_tolerance :
    ∀ (f : ℚ → ℚ) (x_0 x_1 eps : ℚ) (max_its : ℕ) (y : ℚ),
      bisection f x_0 x_1 eps max_its = Except.ok y → |f y| ≤ eps :=
  fun f x_0 x_1 eps max_its y h => bisectGo_ok_elim f eps max_its x_0 x_1 _ y h

/-- Witness for C6 (amended): with the zero function, `bisection` returns the
midpoint `1` and its image is within tolerance. -/
theorem bisection_ok_within_tolerance_witness :
    |(fun _ => (0 : ℚ)) 1| ≤ 1 :=
  bisection_ok_within_tolerance (fun _ => 0) 0 2 1 20 1
    (by rw [bisection, bisectGo]; norm_num)

/-- C4: `solve` returns the Newton-Raphson result when that stage succeeds;
when the Newton stage fails, the failure is necessarily a convergence
failure, and `solve` returns exactly the result of
`bisection(f, x0, x1, eps, max_its_b)` — so any bisection failure
(convergence failure or invalid-bracket error) propagates unchanged, and no
other fallback or retry occurs. -/
theorem solve_newton_then_bisection_fallback :
    ∀ (f df : ℚ → ℚ) (x_0 x_1 eps : ℚ) (max_its_n max_its_b : ℕ),
      (∀ x, newton_raphson f df x_0 eps max_its_n = Except.ok x →
        solve f df x_0 x_1 eps max_its_n max_its_b = Except.ok x) ∧
      (∀ e, newton_raphson f df x_0 eps max_its_n = Except.error e →
        e = SolverError.convergenceError ∧
          solve f df x_0 x_1 eps max_its_n max_its_b =
            bisection f x_0 x_1 eps max_its_b) := by
  intro f df x_0 x_1 eps mn mb
  constructor
  · intro x h
    rw [solve, h]
  · intro e h
    have he := newtonGo_error_elim f df eps mn x_0 e h
    subst he
    exact ⟨rfl, by rw [solve, h]⟩

/-- Witness for C4: with `max_its_n = 0` the Newton stage fails, and `solve`
returns exactly the bisection result on the supplied bracket (here in turn a
propagated invalid-bracket error, since `f(x) = x` is positive on `[5, 9]`). -/
theorem solve_newton_then_bisection_fallback_witness :
    solve (fun x => x) (fun _ => 1) 5 9 1 0 20 = bisection (fun x => x) 5 9 1 20 :=
  ((solve_newton_then_bisection_fallback (fun x => x) (fun _ => 1) 5 9 1 0 20).2
    SolverError.convergenceError (by rw [newton_raphson, newtonGo]; norm_num)).2

/-- C7: the bisection bracket invariant.  First conjunct: if the endpoint
images strictly straddle zero, the narrowing step (`narrow`, as invoked by
`bisectGo` on the midpoint and endpoint evaluations) yields a bracket whose
endpoint images still strictly straddle zero.  Second conjunct: a same-sign
violation is detected by the running loop and fails loudly with a
`ValueError` rather than being silently patched. -/
theorem bisection_bracket_invariant :
    ∀ (f : ℚ → ℚ) (x_0 x_1 m xm eps : ℚ) (r : ℕ),
      (((f x_0 < 0 ∧ f x_1 > 0) ∨ (f x_0 > 0 ∧ f x_1 < 0)) →
        (f (narrow (f m) (f x_0) (f x_1) x_0 x_1 m).1 < 0 ∧
            f (narrow (f m) (f x_0) (f x_1) x_0 x_1 m).2 > 0) ∨
          (f (narrow (f m) (f x_0) (f x_1) x_0 x_1 m).1 > 0 ∧
            f (narrow (f m) (f x_0) (f x_1) x_0 x_1 m).2 < 0)) ∧
      (((f x_0 > 0 ∧ f x_1 > 0) ∨ (f x_0 < 0 ∧ f x_1 < 0)) → |f xm| > eps →
        ∃ msg, bisectGo f eps r x_0 x_1 xm =
          Except.error (SolverError.valueError msg)) := by
  intro f x_0 x_1 m xm eps r
  refine ⟨narrow_preserves_sign f x_0 x_1 m, ?_⟩
  rintro (⟨h0, h1⟩ | ⟨h0, h1⟩) hg
  · exact ⟨_, bisectGo_posPos f eps r x_0 x_1 xm hg h0 h1⟩
  · exact ⟨_, bisectGo_negNeg f eps r x_0 x_1 xm hg h0 h1⟩

/-- Witness for C7: with `f(x) = x`, narrowing the straddling bracket
`[-1, 1]` at midpoint `0` keeps a straddling bracket, and on the same-sign
bracket `[1, 2]` the running loop fails with a `ValueError`. -/
theorem bisection_bracket_invariant_witness :
    (((fun x => x) (narrow ((fun x => x) 0) ((fun x => x) (-1)) ((fun x => x) 1) (-1) 1 0).1 < 0 ∧
        (fun x => x) (narrow ((fun x => x) 0) ((fun x => x) (-1)) ((fun x => x) 1) (-1) 1 0).2 > 0) ∨
      ((fun x => x) (narrow ((fun x => x) 0) ((fun x => x) (-1)) ((fun x => x) 1) (-1) 1 0).1 > 0 ∧
        (fun x => x) (narrow ((fun x => x) 0) ((fun x => x) (-1)) ((fun x => x) 1) (-1) 1 0).2 < 0)) ∧
    (∃ msg, bisectGo (fun x => x) (1/2) 5 1 2 (3/2) =
      Except.error (SolverError.valueError msg)) :=
  ⟨(bisection_bracket_invariant (fun x => x) (-1) 1 0 0 1 0).1
      (Or.inl ⟨by norm_num, by norm_num⟩),
    (bisection_bracket_invariant (fun x => x) 1 2 0 (3/2) (1/2) 5).2
      (Or.inl ⟨by norm_num, by norm_num⟩) (by norm_num [abs_of_pos])⟩

/-- C8: `newton_raphson` places no guard on the derivative being zero.
First conjunct: no zero-derivative situation is ever turned into a solver
error other than an eventual convergence failure — `newton_raphson` never
produces a `ValueError`-kind error.  Second conjunct: even at a point where
`df x = 0`, a loop pass performs the very same unguarded update
`x ← x − f(x)/df(x)` and continues; the division's result simply propagates
into the next iterate per the numeric system's semantics (exact rational
arithmetic in this embedding, where division by zero yields zero). -/
theorem newton_raphson_unguarded_zero_derivative :
    ∀ (f df : ℚ → ℚ) (x_0 eps : ℚ) (max_its : ℕ),
      (∀ msg, newton_raphson f df x_0 eps max_its ≠
        Except.error (SolverError.valueError msg)) ∧
      (∀ (r : ℕ) (x : ℚ), df x = 0 → |f x| > eps →
        newtonGo f df eps (r + 1) x = newtonGo f df eps r (x - f x / df x)) := by
  intro f df x_0 eps max_its
  constructor
  · intro msg hcontra
    exact SolverError.noConfusion (newtonGo_error_elim f df eps max_its x_0 _ hcontra)
  · intro r x hdf hg
    rw [newtonGo, if_pos hg]

/-- Witness for C8: with `f(x) = 1` and `df(x) = 0`, a loop pass at `0` still
performs the unguarded update (in exact rational arithmetic `1/0 = 0`, so the
iterate is unchanged and the loop keeps running toward its cap). -/
theorem newton_raphson_unguarded_zero_derivative_witness :
    newtonGo (fun _ => (1 : ℚ)) (fun _ => 0) (1/2) 1 0 =
      newtonGo (fun _ => (1 : ℚ)) (fun _ => 0) (1/2) 0
        (0 - (fun _ => (1 : ℚ)) 0 / (fun _ => (0 : ℚ)) 0) :=
  (newton_raphson_unguarded_zero_derivative (fun _ => 1) (fun _ => 0) 0 (1/2) 0).2 0 0
    rfl (by norm_num)

/-- C9: when the initial midpoint is already within tolerance, the bisection
loop guard fails before the first pass, so `bisection` returns the midpoint
immediately: the bracket-validity check never runs, and no invalid-bracket
error is raised even if both endpoint images share a strict sign. -/
theorem bisection_immediate_return_skips_bracket_check :
    ∀ (f : ℚ → ℚ) (x_0 x_1 eps : ℚ) (max_its : ℕ),
      |f ((x_0 + x_1) / 2)| ≤ eps →
        bisection f x_0 x_1 eps max_its = Except.ok ((x_0 + x_1) / 2) := by
  intro f x_0 x_1 eps max_its h
  rw [bisection]
  cases max_its with
  | zero => rw [bisectGo, if_neg (not_lt.mpr h)]
  | succ r => rw [bisectGo, if_neg (not_lt.mpr h)]

/-- Witness for C9: `f(x) = (x−6)²` is strictly positive at both endpoints
`5` and `7`, yet since `f(6) = 0` is within tolerance, `bisection` returns
the midpoint with no invalid-bracket error. -/
theorem bisection_immediate_return_skips_bracket_check_witness :
    bisection (fun x => (x - 6) * (x - 6)) 5 7 (1/2) 20 = Except.ok ((5 + 7) / 2) :=
  bisection_immediate_return_skips_bracket_check (fun x => (x - 6) * (x - 6)) 5 7 (1/2) 20
    (by norm_num)

/-- C10: the convergence failure is raised immediately after the
`(max_its+1)`-th update, without re-testing the loop guard.  Concretely, with
`f(x) = x`, `df(x) = 1`, start `1`, `eps = 1/2` and `max_its = 0`, the solver
fails with its convergence error even though the final iterate (the first
update, `newtonIter … 1 = 0`) satisfies `|f(x)| ≤ eps`. -/
theorem newton_raphson_failure_despite_converged_final_iterate :
    newton_raphson (fun x => x) (fun _ => 1) 1 (1/2) 0 =
        Except.error SolverError.convergenceError ∧
      |(fun x => x) (newtonIter (fun x => x) (fun _ => 1) 1 1)| ≤ 1/2 := by
  constructor
  · rw [newton_raphson, newtonGo]
    norm_num
  · norm_num [newtonIter]
